import Mathlib

/-!
Shallow embedding of the mat-props computation engine: three model-dispatched
property calculations over double-precision scalars. Machine doubles are
modelled by real numbers; Rust's total, non-panicking f64 operations
(`+`, `-`, `*`, `/`, `sin`, `cos`, `powf`) are modelled by the corresponding
total real operations (with Lean's total division), so each guarded formula
body is a total function and the `catch_unwind` fault boundary of the source
never fires. The elastic-modulus collaborator
`elastic_modules_for_unidirectional_composite` is not part of the sources
under verification; following the specification, which treats it as an opaque
already-implemented provider of five scalar moduli, it is passed in as an
explicit function argument.
-/

namespace MatProps

/-- Error type of the engine: `UnknownModel` for an invalid model identifier,
`NumericalError` for an intercepted arithmetic fault. The source's
`NumericalError` carries an opaque panic payload, irrelevant to the claims. -/
inductive Error where
| UnknownModel : Error
| NumericalError : Error
deriving DecidableEq

/-- Result type of the engine, mirroring `Result<T, Error>`. -/
abbrev Result (α : Type) := Except Error α

namespace ThermalConductivity

/-- Model enum of `thermal_conductivity_for_unidirectional_composite.rs`,
with discriminants `RuleOfMixtures = 1`, `Vanin = 2`. -/
inductive Model where
| RuleOfMixtures : Model
| Vanin : Model

/-- Derived `FromPrimitive` lookup on the discriminants 1 and 2. -/
def Model.fromU8 (n : ℕ) : Option Model :=
match n with
| 1 => some Model.RuleOfMixtures
| 2 => some Model.Vanin
| _ => none

end ThermalConductivity

/-- Embedding of `thermal_conductivity_for_unidirectional_composite`: resolve
the model from `number_of_model`, then evaluate the selected closed-form
formula; the secondary and tertiary conductivities are transcribed as the
source's two duplicated expressions. -/
noncomputable def thermal_conductivity_for_unidirectional_composite
(number_of_model : ℕ) (fibre_content k_for_fiber k_for_matrix : ℝ) :
Result (ℝ × ℝ × ℝ) :=
match ThermalConductivity.Model.fromU8 number_of_model with
| none => Except.error Error.UnknownModel
| some m =>
  Except.ok (match m with
  | ThermalConductivity.Model.RuleOfMixtures =>
    let k1 := fibre_content * k_for_fiber + (1 - fibre_content) * k_for_matrix
    let k2 := 1 / (fibre_content / k_for_fiber + (1 - fibre_content) / k_for_matrix)
    let k3 := 1 / (fibre_content / k_for_fiber + (1 - fibre_content) / k_for_matrix)
    (k1, k2, k3)
  | ThermalConductivity.Model.Vanin =>
    let k1 := fibre_content * k_for_fiber + (1 - fibre_content) * k_for_matrix
    let k_2_zero := k_for_matrix *
      ((1 + fibre_content + (1 - fibre_content) * k_for_fiber / k_for_matrix) /
        (1 - fibre_content + (1 - fibre_content) * k_for_fiber / k_for_matrix))
    let n : ℝ := 6
    let k2 := k_2_zero *
      (1 + n * n * (n - 1) * k_2_zero / k_for_matrix *
        ((1 - k_for_fiber / k_for_matrix) /
          (1 - fibre_content + (1 + fibre_content) * k_for_fiber / k_for_matrix)) *
        ((1 - k_for_fiber / k_for_matrix) /
          (1 - fibre_content + (1 + fibre_content) * k_for_fiber / k_for_matrix)) *
        (Real.sin (Real.pi / 2) * Real.sin (Real.pi / 2)) /
        (Real.pi / 2) ^ n *
        (fibre_content * fibre_content - fibre_content ^ (2 * n) *
          ((1 - k_for_fiber / k_for_matrix) / (1 + k_for_fiber / k_for_matrix)) *
          ((1 - k_for_fiber / k_for_matrix) / (1 + k_for_fiber / k_for_matrix))))
    let k3 := k_2_zero *
      (1 + n * n * (n - 1) * k_2_zero / k_for_matrix *
        ((1 - k_for_fiber / k_for_matrix) /
          (1 - fibre_content + (1 + fibre_content) * k_for_fiber / k_for_matrix)) *
        ((1 - k_for_fiber / k_for_matrix) /
          (1 - fibre_content + (1 + fibre_content) * k_for_fiber / k_for_matrix)) *
        (Real.sin (Real.pi / 2) * Real.sin (Real.pi / 2)) /
        (Real.pi / 2) ^ n *
        (fibre_content * fibre_content - fibre_content ^ (2 * n) *
          ((1 - k_for_fiber / k_for_matrix) / (1 + k_for_fiber / k_for_matrix)) *
          ((1 - k_for_fiber / k_for_matrix) / (1 + k_for_fiber / k_for_matrix))))
    (k1, k2, k3))

namespace ThermalExpansionHoneycomb

/-- Model enum of `thermal_expansion_for_honeycomb.rs`, with the single
discriminant `Vanin = 1`. -/
inductive Model where
| Vanin : Model

/-- Derived `FromPrimitive` lookup on the discriminant 1. -/
def Model.fromU8 (n : ℕ) : Option Model :=
match n with
| 1 => some Model.Vanin
| _ => none

end ThermalExpansionHoneycomb

/-- Embedding of `thermal_expansion_for_honeycomb`. The `_wall_thickness`
argument is accepted but, exactly as in the source, never read. -/
noncomputable def thermal_expansion_for_honeycomb
(number_of_model : ℕ)
(l_cell_side_size h_cell_side_size _wall_thickness angle alpha_for_honeycomb : ℝ) :
Result (ℝ × ℝ × ℝ) :=
match ThermalExpansionHoneycomb.Model.fromU8 number_of_model with
| none => Except.error Error.UnknownModel
| some m =>
  Except.ok (match m with
  | ThermalExpansionHoneycomb.Model.Vanin =>
    let alpha1 := alpha_for_honeycomb
    let alpha2 := (h_cell_side_size / l_cell_side_size * alpha_for_honeycomb -
        Real.cos angle * alpha_for_honeycomb) /
      (h_cell_side_size / l_cell_side_size - Real.cos angle)
    let alpha3 := alpha_for_honeycomb
    (alpha1, alpha2, alpha3))

namespace ThermalExpansionUnidirectional

/-- Model enum of `thermal_expansion_for_unidirectional_composite.rs`, with
the single discriminant `Vanin = 1`. -/
inductive Model where
| Vanin : Model

/-- Derived `FromPrimitive` lookup on the discriminant 1. -/
def Model.fromU8 (n : ℕ) : Option Model :=
match n with
| 1 => some Model.Vanin
| _ => none

end ThermalExpansionUnidirectional

/-- Type of the opaque elastic-modulus collaborator: given a sub-model
selector and five material scalars it yields five elastic moduli
`(a0, a1, a2, a3, a4)` standing for the source array `a[0] .. a[4]`. -/
abbrev ElasticModules : Type :=
ℕ → ℝ → ℝ → ℝ → ℝ → ℝ → Result (ℝ × ℝ × ℝ × ℝ × ℝ)

/-- Vanin formula body of `thermal_expansion_for_unidirectional_composite`
(source lines 66-94): the effective Poisson ratios `nu21`, `nu31` derived
from the collaborator result `a`, then the three expansion coefficients. -/
noncomputable def vanin_alphas
(g_for_fiber g_for_matrix chi_for_fiber chi_for_matrix fibre_content
  e_for_fiber nu_for_fiber alpha_for_fiber nu_for_matrix alpha_for_matrix : ℝ)
(a : ℝ × ℝ × ℝ × ℝ × ℝ) : ℝ × ℝ × ℝ :=
let nu21 := a.2.2.2.1 * a.1 / a.2.1
let nu31 := a.2.2.2.2 * a.1 / a.2.2.1
let alpha1 := alpha_for_matrix -
  (alpha_for_matrix - alpha_for_fiber) * fibre_content / a.1 *
    (e_for_fiber +
      (8 * g_for_matrix * (nu_for_fiber - nu_for_matrix) * (1 - fibre_content) *
        (1 + nu_for_fiber)) /
      (2 - fibre_content + fibre_content * chi_for_matrix +
        (1 - fibre_content) * (chi_for_fiber + 1) * g_for_matrix / g_for_fiber))
let alpha2 := alpha_for_matrix + (alpha_for_matrix - alpha1) * nu21 -
  (alpha_for_matrix - alpha_for_fiber) * (1 + nu_for_fiber) *
    (nu_for_matrix - nu21) / (nu_for_matrix - nu_for_fiber)
let alpha3 := alpha_for_matrix + (alpha_for_matrix - alpha1) * nu31 -
  (alpha_for_matrix - alpha_for_fiber) * (1 + nu_for_fiber) *
    (nu_for_matrix - nu31) / (nu_for_matrix - nu_for_fiber)
(alpha1, alpha2, alpha3)

/-- Embedding of `thermal_expansion_for_unidirectional_composite`,
parameterized by the opaque collaborator `elastic_modules`: resolve the
model, compute the shear moduli and Kolosov constants, invoke the
collaborator with sub-model selector `2` (propagating its error unchanged),
then evaluate the Vanin expansion formula over its five moduli. -/
noncomputable def thermal_expansion_for_unidirectional_composite
(elastic_modules : ElasticModules) (number_of_model : ℕ)
(fibre_content e_for_fiber nu_for_fiber alpha_for_fiber
  e_for_matrix nu_for_matrix alpha_for_matrix : ℝ) : Result (ℝ × ℝ × ℝ) :=
match ThermalExpansionUnidirectional.Model.fromU8 number_of_model with
| none => Except.error Error.UnknownModel
| some model =>
  let g_for_fiber := e_for_fiber / (2 * (1 + nu_for_fiber))
  let g_for_matrix := e_for_matrix / (2 * (1 + nu_for_matrix))
  let chi_for_fiber := 3 - 4 * nu_for_fiber
  let chi_for_matrix := 3 - 4 * nu_for_matrix
  match elastic_modules 2 fibre_content e_for_fiber nu_for_fiber e_for_matrix
      nu_for_matrix with
  | Except.error e => Except.error e
  | Except.ok a =>
    Except.ok (match model with
    | ThermalExpansionUnidirectional.Model.Vanin =>
      vanin_alphas g_for_fiber g_for_matrix chi_for_fiber chi_for_matrix
        fibre_content e_for_fiber nu_for_fiber alpha_for_fiber nu_for_matrix
        alpha_for_matrix a)

/-- Concrete collaborator used to evaluate the parameterized embedding at
witness inputs: it returns the five moduli `(1, 1, 1, 1, 1)` for every call. -/
noncomputable def em_const : ElasticModules :=
fun _ _ _ _ _ _ => Except.ok (1, 1, 1, 1, 1)

/-- Conductivity model lookup fails for 0 and for every identifier above 2. -/
lemma cond_fromU8_eq_none (m : ℕ) (h : m = 0 ∨ 2 < m) :
ThermalConductivity.Model.fromU8 m = none := by
  rcases h with h | h
  · subst h; rfl
  · obtain ⟨k, rfl⟩ : ∃ k, m = k + 3 := ⟨m - 3, by omega⟩
    rfl

/-- Honeycomb expansion model lookup fails for 0 and above 1. -/
lemma honey_fromU8_eq_none (m : ℕ) (h : m = 0 ∨ 1 < m) :
ThermalExpansionHoneycomb.Model.fromU8 m = none := by
  rcases h with h | h
  · subst h; rfl
  · obtain ⟨k, rfl⟩ : ∃ k, m = k + 2 := ⟨m - 2, by omega⟩
    rfl

/-- Unidirectional expansion model lookup fails for 0 and above 1. -/
lemma uni_fromU8_eq_none (m : ℕ) (h : m = 0 ∨ 1 < m) :
ThermalExpansionUnidirectional.Model.fromU8 m = none := by
  rcases h with h | h
  · subst h; rfl
  · obtain ⟨k, rfl⟩ : ∃ k, m = k + 2 := ⟨m - 2, by omega⟩
    rfl

/-- Unfolding of the conductivity operation at the rule-of-mixtures model. -/
lemma conductivity_one_eq (fc kf km : ℝ) :
thermal_conductivity_for_unidirectional_composite 1 fc kf km =
  Except.ok (fc * kf + (1 - fc) * km,
    1 / (fc / kf + (1 - fc) / km),
    1 / (fc / kf + (1 - fc) / km)) := rfl

/-- Claim C1: every one of the three operations, called with an unsupported
model identifier (0, or above 2 for conductivity, or above 1 for either
expansion), returns the `UnknownModel` error; the result is independent of
every scalar argument and, for the unidirectional-expansion operation, of the
elastic-modulus collaborator, so no arithmetic and no collaborator invocation
can influence it. -/
theorem unknown_model_rejected (m : ℕ) :
((m = 0 ∨ 2 < m) → ∀ fc kf km : ℝ,
    thermal_conductivity_for_unidirectional_composite m fc kf km =
      Except.error Error.UnknownModel) ∧
((m = 0 ∨ 1 < m) → ∀ l h w θ α : ℝ,
    thermal_expansion_for_honeycomb m l h w θ α =
      Except.error Error.UnknownModel) ∧
((m = 0 ∨ 1 < m) → ∀ (em' : ElasticModules) (fc ef nf af emx nm am : ℝ),
    thermal_expansion_for_unidirectional_composite em' m fc ef nf af emx nm am =
      Except.error Error.UnknownModel) := by
  refine ⟨fun h fc kf km => ?_, fun h l hh w θ α => ?_,
    fun h em' fc ef nf af emx nm am => ?_⟩
  · unfold thermal_conductivity_for_unidirectional_composite
    rw [cond_fromU8_eq_none m h]
  · unfold thermal_expansion_for_honeycomb
    rw [honey_fromU8_eq_none m h]
  · unfold thermal_expansion_for_unidirectional_composite
    rw [uni_fromU8_eq_none m h]

/-- Witness for C1: the claim applied at the concrete invalid identifiers 3
(conductivity) and 2 (the two expansions), with all scalar inputs 1 and the
constant collaborator. -/
theorem unknown_model_rejected_witness :
thermal_conductivity_for_unidirectional_composite 3 1 1 1 =
    Except.error Error.UnknownModel ∧
thermal_expansion_for_honeycomb 2 1 1 1 1 1 =
    Except.error Error.UnknownModel ∧
thermal_expansion_for_unidirectional_composite em_const 2 1 1 1 1 1 1 1 =
    Except.error Error.UnknownModel :=
⟨(unknown_model_rejected 3).1 (Or.inr (by norm_num)) 1 1 1,
  (unknown_model_rejected 2).2.1 (Or.inr (by norm_num)) 1 1 1 1 1,
  (unknown_model_rejected 2).2.2 (Or.inr (by norm_num)) em_const 1 1 1 1 1 1 1⟩

/-- Claim C5: for both conductivity models (1, rule of mixtures, and 2, Vanin
tetragonal packing) and every real input, the returned secondary and tertiary
conductivities coincide, each arising from its own duplicated expression. -/
theorem conductivity_transverse_symmetry (fc kf km : ℝ) :
(∃ a b, thermal_conductivity_for_unidirectional_composite 1 fc kf km =
    Except.ok (a, b, b)) ∧
(∃ a b, thermal_conductivity_for_unidirectional_composite 2 fc kf km =
    Except.ok (a, b, b)) :=
⟨⟨_, _, rfl⟩, ⟨_, _, rfl⟩⟩

/-- Claim C6: the honeycomb expansion with model 1 (Vanin) returns the
caller-supplied wall expansion coefficient unchanged as both the primary and
the tertiary component. -/
theorem honeycomb_alpha1_alpha3_unchanged (l h w θ α : ℝ) :
∃ a2, thermal_expansion_for_honeycomb 1 l h w θ α = Except.ok (α, a2, α) :=
⟨_, rfl⟩

/-- Claim C7: two honeycomb-expansion calls that differ only in the wall
thickness produce identical results (success or error alike), for every model
identifier and every pair of wall-thickness values: the parameter is never
read by the function body. -/
theorem honeycomb_wall_thickness_irrelevant (m : ℕ) (l h w w' θ α : ℝ) :
thermal_expansion_for_honeycomb m l h w θ α =
  thermal_expansion_for_honeycomb m l h w' θ α := rfl

/-- Unfolding of the unidirectional expansion operation at the valid model 1:
it forwards the collaborator's error, or applies the Vanin formula body to the
collaborator's five moduli together with the shear moduli and Kolosov
constants computed from the inputs. -/
lemma expansion_one_eq (em' : ElasticModules) (fc ef nf af emx nm am : ℝ) :
thermal_expansion_for_unidirectional_composite em' 1 fc ef nf af emx nm am =
  match em' 2 fc ef nf emx nm with
  | Except.error e => Except.error e
  | Except.ok a =>
    Except.ok (vanin_alphas (ef / (2 * (1 + nf))) (emx / (2 * (1 + nm)))
      (3 - 4 * nf) (3 - 4 * nm) fc ef nf af nm am a) := rfl

/-- Claim C3: for every collaborator and every valid model identifier of the
unidirectional expansion operation, the collaborator is invoked with
sub-model selector 2 (not the caller-supplied identifier), its error is
propagated unchanged, and on success its five moduli are exactly the ones the
Vanin expansion formula consumes. -/
theorem expansion_invokes_submodel_two (em' : ElasticModules) (m : ℕ)
(h : ThermalExpansionUnidirectional.Model.fromU8 m =
  some ThermalExpansionUnidirectional.Model.Vanin)
(fc ef nf af emx nm am : ℝ) :
(∀ e, em' 2 fc ef nf emx nm = Except.error e →
  thermal_expansion_for_unidirectional_composite em' m fc ef nf af emx nm am =
    Except.error e) ∧
(∀ a, em' 2 fc ef nf emx nm = Except.ok a →
  thermal_expansion_for_unidirectional_composite em' m fc ef nf af emx nm am =
    Except.ok (vanin_alphas (ef / (2 * (1 + nf))) (emx / (2 * (1 + nm)))
      (3 - 4 * nf) (3 - 4 * nm) fc ef nf af nm am a)) := by
  have hm : m = 1 := by
    rcases m with _ | _ | m
    · exact absurd h (by simp [ThermalExpansionUnidirectional.Model.fromU8])
    · rfl
    · exact absurd h (by simp [ThermalExpansionUnidirectional.Model.fromU8])
  subst hm
  constructor
  · intro e he
    rw [expansion_one_eq, he]
  · intro a ha
    rw [expansion_one_eq, ha]

/-- Witness for C3: at model identifier 1 and the constant collaborator with
all scalars 1, the operation returns the Vanin formula applied to the
collaborator's five moduli. -/
theorem expansion_invokes_submodel_two_witness :
thermal_expansion_for_unidirectional_composite em_const 1 1 1 1 1 1 1 1 =
  Except.ok (vanin_alphas (1 / (2 * (1 + 1))) (1 / (2 * (1 + 1)))
    (3 - 4 * 1) (3 - 4 * 1) 1 1 1 1 1 1 (1, 1, 1, 1, 1)) :=
(expansion_invokes_submodel_two em_const 1 rfl 1 1 1 1 1 1 1).2
  (1, 1, 1, 1, 1) rfl

/-- Claim C4: whenever the unidirectional expansion operation succeeds with a
collaborator result `(a0, a1, a2, a3, a4)` that is transversely isotropic
(`a1 = a2` and `a3 = a4`, as the specification's conventions require of the
five-modulus result of the opaque collaborator), the returned secondary and
tertiary expansion coefficients are equal: the secondary one is computed from
`nu21 = a3 * a0 / a1` and the tertiary one from `nu31 = a4 * a0 / a2`. -/
theorem expansion_transverse_isotropy (em' : ElasticModules)
(fc ef nf af emx nm am a0 a1 a2 a3 a4 : ℝ)
(hE : em' 2 fc ef nf emx nm = Except.ok (a0, a1, a2, a3, a4))
(h12 : a1 = a2) (h34 : a3 = a4) :
∃ x y, thermal_expansion_for_unidirectional_composite em' 1 fc ef nf af emx
    nm am = Except.ok (x, y, y) := by
  subst h12
  subst h34
  rw [expansion_one_eq, hE]
  exact ⟨_, _, rfl⟩

/-- Witness for C4: the constant collaborator returns `(1, 1, 1, 1, 1)`,
which is transversely isotropic, and the operation's secondary and tertiary
results coincide. -/
theorem expansion_transverse_isotropy_witness :
∃ x y, thermal_expansion_for_unidirectional_composite em_const 1 1 1 1 1 1 1 1
    = Except.ok (x, y, y) :=
expansion_transverse_isotropy em_const 1 1 1 1 1 1 1 1 1 1 1 1 rfl rfl rfl

/-- Claim C8: for the rule-of-mixtures conductivity model and every fiber and
matrix conductivity, fibre content 0 yields exactly the matrix conductivity
in all three directions, and fibre content 1 yields exactly the fiber
conductivity in all three directions. -/
theorem rule_of_mixtures_boundaries (kf km : ℝ) :
thermal_conductivity_for_unidirectional_composite 1 0 kf km =
    Except.ok (km, km, km) ∧
thermal_conductivity_for_unidirectional_composite 1 1 kf km =
    Except.ok (kf, kf, kf) := by
  constructor
  · rw [conductivity_one_eq]
    norm_num
  · rw [conductivity_one_eq]
    norm_num

/-- Claim C9: the rule-of-mixtures conductivity model with matrix
conductivity 0 (the division-by-zero configuration of the harmonic-mean term)
returns a success result for every fibre content and fiber conductivity and
never an error: the division is total, so no fault reaches the interception
boundary and no `NumericalError` is produced. -/
theorem zero_matrix_conductivity_is_ok (fc kf : ℝ) :
(∃ r, thermal_conductivity_for_unidirectional_composite 1 fc kf 0 =
    Except.ok r) ∧
∀ e, thermal_conductivity_for_unidirectional_composite 1 fc kf 0 ≠
    Except.error e := by
  refine ⟨⟨_, rfl⟩, fun e he => ?_⟩
  rw [conductivity_one_eq] at he
  exact Except.noConfusion he

/-- Claim C10: with a valid model identifier (1 or 2 for conductivity, 1 for
honeycomb expansion), the operation returns a success value for every
combination of real arguments; since a call that returns `Except.ok` returns
nothing else, the `NumericalError` branch is unreachable, the guarded formula
bodies being total. -/
theorem valid_models_always_ok (fc kf km l hcs w θ α : ℝ) :
(∃ r, thermal_conductivity_for_unidirectional_composite 1 fc kf km =
    Except.ok r) ∧
(∃ r, thermal_conductivity_for_unidirectional_composite 2 fc kf km =
    Except.ok r) ∧
(∃ r, thermal_expansion_for_honeycomb 1 l hcs w θ α = Except.ok r) :=
⟨⟨_, rfl⟩, ⟨_, rfl⟩, ⟨_, rfl⟩⟩

end MatProps
